import Mathlib

/-!
Verification of `examples/send-email.py` from the dircap repository.

The script reads a JSON report of a directory-capacity check, summarizes it,
formats an alert email and sends it over SMTP. We embed its functions
shallowly:

* JSON values are the inductive `Json`; numbers are modelled as integers
  (the report tallies and byte counts the script consumes are integral;
  non-integral JSON numbers are outside the model).  Python's `bool` is a
  subclass of `int`, which matters for `isinstance(x, int)` checks, so the
  embedding keeps a separate `bool` constructor and models `isinstance`
  explicitly.
* The process environment is a function `String → Option String`
  (`os.getenv`).
* The filesystem read of the report is an `Option String` (the file's text,
  or `none` when the path does not exist / cannot be read), and JSON parsing
  is an abstract `String → Option Json` (`none` = parse failure).
* The SMTP session is an oracle `SessionSpec → Except String Unit`: the
  `SessionSpec` records everything the script hands to `smtplib` (server,
  port, the two encryption flags, addresses and message), and the oracle's
  answer is whether the connect/login/send sequence raised.
* Wall-clock time (`datetime.now().strftime(...)`) is an explicit `now`
  string argument.
* Fallible Python code (`int(...)` coercions that may raise) returns
  `Except String`; an `Except.error` models an exception escaping the
  function.
-/

namespace DircapSendEmail

/-- JSON values as decoded by Python's `json.loads` (numbers restricted to
integers; `bool` kept separate because Python's `True`/`False` are `int`
instances but format as `True`/`False`). -/
inductive Json where
  | null : Json
  | bool : Bool → Json
  | int : Int → Json
  | str : String → Json
  | arr : List Json → Json
  | obj : List (String × Json) → Json

/-- A decoded JSON object, i.e. a Python `dict` (keys unique after
`json.loads`, which keeps the last of a repeated key). -/
abbrev Dict := List (String × Json)

/-- Python `d.get(k)` (`none` = key absent, i.e. Python `None` default). -/
def dget (d : Dict) (k : String) : Option Json :=
  (d.find? (fun p => p.1 == k)).map Prod.snd

/-- Keep a value only when it is a JSON object (`isinstance(x, dict)`). -/
def asDict : Json → Option Dict
  | .obj kvs => some kvs
  | _ => none

/-- Python `str.strip()`: whitespace dropped from both ends (modelled over
the character list). -/
def pyStrip (s : String) : String :=
  String.mk (((s.data.dropWhile Char.isWhitespace).reverse.dropWhile
    Char.isWhitespace).reverse)

/-- Python `str.lower()` (modelled over the character list). -/
def pyLower (s : String) : String :=
  String.mk (s.data.map Char.toLower)

/-- Python repr of a string: quote choice and escapes as CPython prints them
(single quotes unless the string holds `'` and no `"`; backslash, quote,
newline, carriage return and tab escaped; other characters kept verbatim —
non-printable characters other than these are outside the model). -/
def pyStrRepr (s : String) : String :=
  let q : Char := if s.data.contains '\'' && !(s.data.contains '"') then '"' else '\''
  let esc := s.data.foldr
    (fun c acc =>
      if c = '\\' then '\\' :: '\\' :: acc
      else if c = q then '\\' :: q :: acc
      else if c = '\n' then '\\' :: 'n' :: acc
      else if c = '\r' then '\\' :: 'r' :: acc
      else if c = '\t' then '\\' :: 't' :: acc
      else c :: acc) []
  String.mk (q :: (esc ++ [q]))

mutual

/-- Python `repr` on JSON-decoded values (used by `str` on lists/dicts). -/
def pyRepr : Json → String
  | .null => "None"
  | .bool true => "True"
  | .bool false => "False"
  | .int n => toString n
  | .str s => pyStrRepr s
  | .arr xs => "[" ++ String.intercalate ", " (pyReprList xs) ++ "]"
  | .obj kvs => "\x7b" ++ String.intercalate ", " (pyReprFields kvs) ++ "\x7d"

def pyReprList : List Json → List String
  | [] => []
  | x :: xs => pyRepr x :: pyReprList xs

def pyReprFields : List (String × Json) → List String
  | [] => []
  | (k, v) :: kvs => (pyStrRepr k ++ ": " ++ pyRepr v) :: pyReprFields kvs

end

/-- Python `str` on JSON-decoded values: `str(None) = "None"`,
`str(True) = "True"`, integers in decimal, strings unchanged, containers via
`repr`. -/
def pyStr : Json → String
  | .null => "None"
  | .bool true => "True"
  | .bool false => "False"
  | .int n => toString n
  | .str s => s
  | .arr xs => pyRepr (.arr xs)
  | .obj kvs => pyRepr (.obj kvs)

/-- Python truthiness of a JSON-decoded value (`bool(x)`). -/
def pyTruthy : Json → Bool
  | .null => false
  | .bool b => b
  | .int n => n != 0
  | .str s => s != ""
  | .arr xs => !xs.isEmpty
  | .obj kvs => !kvs.isEmpty

/-- Digit run of a Python integer literal: digits with single underscores
allowed between digits (`lastDigit` tracks whether the previous character
was a digit). -/
def parseDigitsAux : List Char → Int → Bool → Option Int
  | [], acc, lastDigit => if lastDigit then some acc else none
  | c :: cs, acc, lastDigit =>
      if c.isDigit then parseDigitsAux cs (acc * 10 + (c.toNat - 48)) true
      else if c = '_' then
        if lastDigit then parseDigitsAux cs acc false else none
      else none

/-- Python `int(s)` on a string: surrounding whitespace stripped, optional
sign, then a digit run; anything else raises `ValueError`. -/
def pyParseInt (s : String) : Except String Int :=
  let cs := (pyStrip s).data
  let signed : Int × List Char :=
    match cs with
    | '+' :: r => (1, r)
    | '-' :: r => (-1, r)
    | r => (1, r)
  match parseDigitsAux signed.2 0 false with
  | some v => .ok (signed.1 * v)
  | none => .error ("invalid literal for int() with base 10: " ++ pyStrRepr s)

/-- Python `int(x)` on a JSON-decoded value: ints unchanged, bools to 0/1,
strings parsed, everything else raises `TypeError`. -/
def pyIntOf : Json → Except String Int
  | .bool b => .ok (if b then 1 else 0)
  | .int n => .ok n
  | .str s => pyParseInt s
  | .null => .error "int() argument must not be NoneType"
  | .arr _ => .error "int() argument must not be list"
  | .obj _ => .error "int() argument must not be dict"

/-- The summary tally `{"ok": .., "warn": .., "over": ..}`. -/
structure Summary where
  ok : Int
  warn : Int
  over : Int
deriving DecidableEq, Repr

/-- One tally field of `_summarize`: `int(s.get(k, 0) or 0)`. -/
def tallyField (s : Dict) (k : String) : Except String Int :=
  let v := (dget s k).getD (Json.int 0)
  if pyTruthy v then pyIntOf v else .ok 0

/-- `str(r.get("status"))` — the status label of a result record (absent
status stringifies to `"None"`). -/
def statusOf (r : Dict) : String :=
  pyStr ((dget r "status").getD Json.null)

/-- `sum(1 for r in results if str(r.get("status")) == label)`. -/
def countStatus (results : List Dict) (label : String) : Int :=
  ((results.filter (fun r => statusOf r == label)).length : Int)

/-- `_summarize` before its fallback step: shape dispatch and field
extraction (tally coercion, warning stringification/filtering, keeping only
dict results). -/
def summarizePre : Json → Except String (Summary × List String × List Dict)
  | .obj kvs => do
      let s ← match dget kvs "summary" with
        | some (.obj sd) => do
            let okv ← tallyField sd "ok"
            let wv ← tallyField sd "warn"
            let ov ← tallyField sd "over"
            pure (⟨okv, wv, ov⟩ : Summary)
        | _ => pure (⟨0, 0, 0⟩ : Summary)
      let w := match dget kvs "warnings" with
        | some (.arr ws) => (ws.map pyStr).filter (fun x => pyStrip x != "")
        | _ => []
      let r := match dget kvs "results" with
        | some (.arr rs) => rs.filterMap asDict
        | _ => []
      pure (s, w, r)
  | .arr xs => pure (⟨0, 0, 0⟩, [], xs.filterMap asDict)
  | _ => pure (⟨0, 0, 0⟩, [], [])

/-- The fallback of `_summarize`: when the tally read so far is `(0,0,0)`
and results are non-empty, recompute by counting statuses. -/
def applyFallback (s : Summary) (w : List String) (r : List Dict) :
    Summary × List String × List Dict :=
  if s = ⟨0, 0, 0⟩ ∧ r.isEmpty = false then
    (⟨countStatus r "OK", countStatus r "WARN", countStatus r "OVER"⟩, w, r)
  else (s, w, r)

/-- `_summarize`: normalize either report shape into
(tally, warnings, results); `Except.error` models a coercion exception
escaping the function. -/
def summarize (payload : Json) : Except String (Summary × List String × List Dict) :=
  (summarizePre payload).map (fun t => applyFallback t.1 t.2.1 t.2.2)

/-- Python format spec `{s:w}` on a string: left-aligned, space-padded to
minimum width `w`. -/
def padRight (s : String) (w : Nat) : String :=
  s ++ String.mk (List.replicate (w - s.length) ' ')

/-- Python format spec `{s:>w}` on a string: right-aligned, space-padded to
minimum width `w`. -/
def padLeft (s : String) (w : Nat) : String :=
  String.mk (List.replicate (w - s.length) ' ') ++ s

/-- `isinstance(x, int)` on a JSON-decoded value: Python's `bool` is a
subclass of `int`, so both `int` and `bool` values pass. -/
def isPyInt : Json → Bool
  | .int _ => true
  | .bool _ => true
  | _ => false

/-- The `f"{x}B"` fragment of `_fmt_row`: rendered when the field is present
and passes `isinstance(x, int)`, else the empty string. -/
def bytePart (v : Option Json) : String :=
  match v with
  | some x => if isPyInt x then pyStr x ++ "B" else ""
  | none => ""

/-- The `extra` suffix of `_fmt_row`: `" (usedB/limitB)"` exactly when both
byte fragments are non-empty. -/
def bytesSuffix (r : Dict) : String :=
  let used := bytePart (dget r "used_bytes")
  let limit := bytePart (dget r "limit_bytes")
  if used != "" && limit != "" then " (" ++ used ++ "/" ++ limit ++ ")" else ""

/-- `_fmt_row`: one affected-folder line,
`f"- {status:4} {pct:>4}%  {name}  |  {path}{extra}"`. -/
def fmtRow (r : Dict) : String :=
  let name := pyStr ((dget r "name").getD (.str ""))
  let path := pyStr ((dget r "path").getD (.str ""))
  let pct := pyStr ((dget r "pct_used").getD (.str ""))
  let status := pyStr ((dget r "status").getD (.str ""))
  "- " ++ padRight status 4 ++ " " ++ padLeft pct 4 ++ "%  " ++ name
    ++ "  |  " ++ path ++ bytesSuffix r

/-- The fallback line of the body when no WARN/OVER rows exist. -/
def noDetailsLine : String := "Affected folders: (could not parse details from JSON)"

/-- The `lines` list `_build_message` accumulates before joining with
newlines.  `logTxt`/`logJson` are the command-line paths (`str(Path(p))`
modelled as the path string itself), `now` the formatted
`datetime.now()` reading captured at build time. -/
def buildLines (summary : Summary) (warnings : List String) (results : List Dict)
    (logTxt logJson : String) (now : String) : List String :=
  let affected := results.filter (fun r => statusOf r == "WARN" || statusOf r == "OVER")
  ["dircap detected a cap breach.", "",
   "Summary: OK=" ++ toString summary.ok ++ "  WARN=" ++ toString summary.warn
     ++ "  OVER=" ++ toString summary.over,
   "Time:    " ++ now, ""]
  ++ (if affected.isEmpty then [noDetailsLine, ""]
      else ["Affected folders (WARN/OVER):"] ++ affected.map fmtRow ++ [""])
  ++ (if warnings.isEmpty then []
      else ["Warnings:"] ++ warnings.map (fun w => "- " ++ w) ++ [""])
  ++ ["Logs:", "- Text: " ++ logTxt, "- JSON: " ++ logJson, "",
      "Tip: Open the text log for the full Rich table output."]

/-- `_build_message`: the `(subject, body)` pair. -/
def buildMessage (summary : Summary) (warnings : List String) (results : List Dict)
    (logTxt logJson : String) (now : String) : String × String :=
  ("dircap alert: OVER=" ++ toString summary.over ++ " WARN=" ++ toString summary.warn,
   String.intercalate "\n" (buildLines summary warnings results logTxt logJson now))

/-- The process environment, `os.getenv`. -/
abbrev Env := String → Option String

/-- `_env`: trimmed value when present and non-empty, else the default. -/
def envGet (env : Env) (name : String) (default : Option String) : Option String :=
  match env name with
  | none => default
  | some v => if pyStrip v = "" then default else some (pyStrip v)

/-- `_env_bool`: truthy-token check on the (trimmed) value, caller default
when the variable is absent or blank. -/
def envBool (env : Env) (name : String) (default : Bool) : Bool :=
  match envGet env name none with
  | none => default
  | some v => ["1", "true", "yes", "y", "on"].contains (pyLower v)

/-- Everything `_send_email` hands to `smtplib` when it opens the session:
connection parameters, the two encryption flags, and the composed message.
`useSsl` selects `SMTP_SSL` (implicit encryption); otherwise `SMTP` with a
`starttls()` upgrade exactly when `useTls`. -/
structure SessionSpec where
  server : String
  port : Int
  useSsl : Bool
  useTls : Bool
  fromAddr : String
  toAddr : String
  subject : String
  body : String
deriving DecidableEq, Repr

/-- What the SMTP session does: the oracle's answer is whether the
connect/handshake/login/send sequence raised an exception (`.error` carries
the exception text). -/
abbrev SmtpOracle := SessionSpec → Except String Unit

/-- Observable outcome of `_send_email`: return code, the session attempted
(`none` = no network activity), and the lines printed to stdout/stderr. -/
structure SendResult where
  code : Nat
  attempted : Option SessionSpec
  stdout : List String
  stderr : List String
deriving DecidableEq, Repr

/-- The missing-configuration message of `_send_email`. -/
def missingEnvMsg : String :=
  "Missing env vars. Required: DIRCAP_EMAIL_TO, DIRCAP_SMTP_SERVER, DIRCAP_SMTP_USER, DIRCAP_SMTP_PASS"

/-- `DIRCAP_SMTP_PORT` as `_send_email` reads it (default `"465"`). -/
def portString (env : Env) : String :=
  (envGet env "DIRCAP_SMTP_PORT" (some "465")).getD "465"

/-- The session `_send_email` opens once the port parsed: sender defaulting
to the SMTP user, `use_ssl` defaulting to `port == 465`, `use_tls`
defaulting to `port == 587`, both overridable via the environment. -/
def sessionOf (env : Env) (subject body toAddr server user : String)
    (port : Int) : SessionSpec :=
  ⟨server, port, envBool env "EMAIL_USE_SSL" (port == 465),
   envBool env "EMAIL_USE_TLS" (port == 587),
   (envGet env "DIRCAP_EMAIL_FROM" (some user)).getD user, toAddr, subject, body⟩

/-- `_send_email` after the four required settings validated: sender/port
resolution, flag computation, session attempt. -/
def sendStage2 (env : Env) (oracle : SmtpOracle) (subject body : String)
    (toAddr server user : String) : SendResult :=
  match pyParseInt (portString env) with
  | .error _ => ⟨1, none, [], ["Invalid DIRCAP_SMTP_PORT: " ++ portString env]⟩
  | .ok port =>
      match oracle (sessionOf env subject body toAddr server user port) with
      | .ok _ => ⟨0, some (sessionOf env subject body toAddr server user port),
          ["Email sent to " ++ toAddr], []⟩
      | .error e => ⟨2, some (sessionOf env subject body toAddr server user port),
          [], ["Email failed: " ++ e]⟩

/-- `_send_email`: validate the four required settings (`not to or ...`
short-circuits, so checking them one at a time is equivalent), then resolve
the connection parameters and attempt the send. -/
def sendEmail (env : Env) (oracle : SmtpOracle) (subject body : String) : SendResult :=
  match envGet env "DIRCAP_EMAIL_TO" none with
  | none => ⟨1, none, [], [missingEnvMsg]⟩
  | some toAddr =>
    match envGet env "DIRCAP_SMTP_SERVER" none with
    | none => ⟨1, none, [], [missingEnvMsg]⟩
    | some server =>
      match envGet env "DIRCAP_SMTP_USER" none with
      | none => ⟨1, none, [], [missingEnvMsg]⟩
      | some user =>
        match envGet env "DIRCAP_SMTP_PASS" none with
        | none => ⟨1, none, [], [missingEnvMsg]⟩
        | some _pass => sendStage2 env oracle subject body toAddr server user

/-- `_load_json` combined with the `log_json.exists()` guard of `main`:
`fileText` is the file's content (`none` = path absent or unreadable),
`parse` is `json.loads` (`none` = it raised).  Any failure degrades to an
absent report (Python `None`, modelled as `Json.null`, which `json.loads`
also yields for the text `"null"`); the function is total — no exception
escapes. -/
def loadJson (fileText : Option String) (parse : String → Option Json) : Json :=
  match fileText with
  | none => Json.null
  | some s => (parse s).getD Json.null

/-- The usage message printed by `main` on bad arity. -/
def usageMsg : String := "Usage: send-email.py <log_txt_path> <log_json_path>"

/-- Observable outcome of `main`: exit code, lines `main` itself printed to
stderr, and the mailer's outcome when it was reached. -/
structure MainResult where
  code : Nat
  stderr : List String
  send : Option SendResult
deriving DecidableEq, Repr

/-- `main(argv)`: arity check, then load → summarize → build → send, the
mailer's return value propagated as the exit code.  An `Except.error` models
an exception escaping `main` (the run aborting with a traceback). -/
def mainRun (argv : List String) (env : Env) (fileText : Option String)
    (parse : String → Option Json) (oracle : SmtpOracle) (now : String) :
    Except String MainResult :=
  match argv with
  | [_, logTxt, logJson] =>
      (summarize (loadJson fileText parse)).map (fun t =>
        let m := buildMessage t.1 t.2.1 t.2.2 logTxt logJson now
        let r := sendEmail env oracle m.1 m.2
        ⟨r.code, [], some r⟩)
  | _ => pure ⟨2, [usageMsg], none⟩

/-- Whether the report supplies its own tally sub-object
(`isinstance(payload.get("summary"), dict)`). -/
def hasTallyObj : Json → Bool
  | .obj kvs =>
      match dget kvs "summary" with
      | some (.obj _) => true
      | _ => false
  | _ => false

/-- The flat-list report of the spec's test example. -/
def flatReport : Json :=
  Json.arr [Json.obj [("status", Json.str "OK")], Json.obj [("status", Json.str "WARN")],
    Json.obj [("status", Json.str "OVER")], Json.obj [("status", Json.str "OVER")]]

/-- The verbose report of the spec's test example: tally `{ok:3,warn:1,over:0}`
and one WARN result. -/
def verboseReport : Json :=
  Json.obj [("summary", Json.obj [("ok", Json.int 3), ("warn", Json.int 1), ("over", Json.int 0)]),
    ("results", Json.arr [Json.obj [("status", Json.str "WARN")]])]

/-- A verbose report whose tally field holds a non-numeric string. -/
def badTallyReport : Json :=
  Json.obj [("summary", Json.obj [("ok", Json.str "abc")])]

/-- A verbose report whose tally field holds a negative integer. -/
def negTallyReport : Json :=
  Json.obj [("summary", Json.obj [("ok", Json.int (-1))])]

/-- The result record of the spec's rendering example. -/
def warnRow : Dict :=
  [("status", Json.str "WARN"), ("pct_used", Json.int 91), ("name", Json.str "logs"),
   ("path", Json.str "/var/logs"), ("used_bytes", Json.int 910), ("limit_bytes", Json.int 1000)]

/-- A result record whose `used_bytes` is the JSON boolean `true` (a Python
`bool`, hence an `int` instance). -/
def boolBytesRow : Dict :=
  [("status", Json.str "OVER"), ("used_bytes", Json.bool true), ("limit_bytes", Json.int 1000)]

/-- An environment carrying only the four required mail settings. -/
def envFull : Env := fun n =>
  if n = "DIRCAP_EMAIL_TO" then some "a@b"
  else if n = "DIRCAP_SMTP_SERVER" then some "srv"
  else if n = "DIRCAP_SMTP_USER" then some "u"
  else if n = "DIRCAP_SMTP_PASS" then some "p"
  else none

/-- `envFull` with a non-numeric port override. -/
def envBadPort : Env := fun n =>
  if n = "DIRCAP_SMTP_PORT" then some "4x5" else envFull n

/-- `envFull` with port 2525 and neither encryption flag set. -/
def env2525 : Env := fun n =>
  if n = "DIRCAP_SMTP_PORT" then some "2525" else envFull n

theorem envBool_of_unset (env : Env) (name : String) (d : Bool)
    (h : envGet env name none = none) : envBool env name d = d := by
  unfold envBool
  rw [h]

theorem applyFallback_fst_nonneg (w : List String) (r : List Dict) :
    0 ≤ (applyFallback ⟨0, 0, 0⟩ w r).1.ok ∧ 0 ≤ (applyFallback ⟨0, 0, 0⟩ w r).1.warn ∧
      0 ≤ (applyFallback ⟨0, 0, 0⟩ w r).1.over := by
  unfold applyFallback
  split
  · refine ⟨?_, ?_, ?_⟩ <;> exact Int.ofNat_nonneg _
  · exact ⟨le_refl 0, le_refl 0, le_refl 0⟩

theorem summarizePre_zero_of_no_tally (p : Json) (hno : hasTallyObj p = false) :
    ∃ w r, summarizePre p = .ok (⟨0, 0, 0⟩, w, r) := by
  cases p with
  | obj kvs =>
      simp only [hasTallyObj] at hno
      simp only [summarizePre]
      cases hs : dget kvs "summary" with
      | none => exact ⟨_, _, rfl⟩
      | some v =>
          rw [hs] at hno
          cases v <;> try exact ⟨_, _, rfl⟩
          exact Bool.noConfusion hno
  | arr xs => exact ⟨[], xs.filterMap asDict, rfl⟩
  | null => exact ⟨[], [], rfl⟩
  | bool b => exact ⟨[], [], rfl⟩
  | int n => exact ⟨[], [], rfl⟩
  | str s => exact ⟨[], [], rfl⟩

/-- C1 is false as stated: invoking the program with no arguments beyond the
program name prints the usage message but exits with code 2, not the claimed
dedicated code 1. -/
theorem C1_counterexample :
    mainRun ["send-email.py"] (fun _ => none) none (fun _ => none)
        (fun _ => .ok ()) "" = .ok ⟨2, [usageMsg], none⟩ ∧ (2 : Nat) ≠ 1 :=
  ⟨rfl, by decide⟩

/-- C1 (amended): any argument arity other than exactly two positional
arguments beyond the program name prints the usage message and exits with
code 2 — the same value as the mailer's transport-failure code, so it is not
a dedicated usage-error code (1 remains the configuration-error code). -/
theorem C1_usage_exit (argv : List String) (env : Env) (fileText : Option String)
    (parse : String → Option Json) (oracle : SmtpOracle) (now : String)
    (h : argv.length ≠ 3) :
    mainRun argv env fileText parse oracle now = .ok ⟨2, [usageMsg], none⟩ := by
  match argv with
  | [] => rfl
  | [_] => rfl
  | [_, _] => rfl
  | [_, _, _] => exact absurd rfl h
  | _ :: _ :: _ :: _ :: _ => rfl

/-- C1 witness: the amended theorem at an empty argument vector. -/
theorem C1_usage_exit_witness :
    mainRun [] (fun _ => none) none (fun _ => none) (fun _ => .ok ()) "" =
      .ok ⟨2, [usageMsg], none⟩ :=
  C1_usage_exit [] (fun _ => none) none (fun _ => none) (fun _ => .ok ()) "" (by decide)

/-- C2 is false as stated: `_build_message` embeds the `datetime.now()`
reading in the body, so two invocations with identical summary, warnings,
results and paths but different clock readings produce different bodies. -/
theorem C2_counterexample :
    buildMessage ⟨0, 0, 0⟩ [] [] "a" "b" "2024-01-01 00:00:00" ≠
      buildMessage ⟨0, 0, 0⟩ [] [] "a" "b" "2024-01-01 00:00:01" := by
  decide

/-- C2 (amended): with the build-time clock reading counted among the
inputs, the message builder is deterministic — the subject depends only on
the tally (never on the clock), and two invocations with identical tally,
warnings, results, paths and equal clock readings yield identical
(subject, body) pairs. -/
theorem C2_deterministic (s : Summary) (w : List String) (r : List Dict)
    (p q n₁ n₂ : String) :
    (buildMessage s w r p q n₁).1 = (buildMessage s w r p q n₂).1 ∧
      (n₁ = n₂ → buildMessage s w r p q n₁ = buildMessage s w r p q n₂) :=
  ⟨rfl, fun h => by rw [h]⟩

/-- C2 witness: determinism at a concrete input with equal clock readings. -/
theorem C2_deterministic_witness :
    buildMessage ⟨1, 2, 3⟩ ["w"] [] "a" "b" "t" =
      buildMessage ⟨1, 2, 3⟩ ["w"] [] "a" "b" "t" :=
  (C2_deterministic ⟨1, 2, 3⟩ ["w"] [] "a" "b" "t" "t").2 rfl

/-- C3 is false as stated: a verbose report may carry a negative tally value,
and the summarizer returns it as-is — the counters are not always
non-negative. -/
theorem C3_counterexample :
    summarize negTallyReport = .ok (⟨-1, 0, 0⟩, [], []) ∧
      (⟨-1, 0, 0⟩ : Summary).ok < 0 :=
  ⟨rfl, by decide⟩

/-- C3 (amended): the summary consists of three integer counters ok, warn,
over; they are non-negative whenever the report does not supply its own
tally sub-object (flat lists, absent/null reports, non-object payloads, or
objects without a dict-valued "summary"), but a supplied tally is kept
verbatim and may be negative. -/
theorem C3_nonneg_without_tally (p : Json) (s : Summary) (w : List String)
    (r : List Dict) (hno : hasTallyObj p = false)
    (h : summarize p = .ok (s, w, r)) :
    0 ≤ s.ok ∧ 0 ≤ s.warn ∧ 0 ≤ s.over := by
  obtain ⟨w', r', hpre⟩ := summarizePre_zero_of_no_tally p hno
  have hsum : summarize p = .ok (applyFallback ⟨0, 0, 0⟩ w' r') := by
    simp [summarize, hpre, Except.map]
  rw [hsum] at h
  have h2 : applyFallback ⟨0, 0, 0⟩ w' r' = (s, w, r) := Except.ok.inj h
  have h3 := applyFallback_fst_nonneg w' r'
  rw [h2] at h3
  exact h3

/-- C3 witness: the amended theorem at the flat-list example report. -/
theorem C3_nonneg_without_tally_witness :
    0 ≤ (⟨1, 1, 2⟩ : Summary).ok ∧ 0 ≤ (⟨1, 1, 2⟩ : Summary).warn ∧
      0 ≤ (⟨1, 1, 2⟩ : Summary).over :=
  C3_nonneg_without_tally flatReport ⟨1, 1, 2⟩ []
    [[("status", Json.str "OK")], [("status", Json.str "WARN")],
     [("status", Json.str "OVER")], [("status", Json.str "OVER")]] rfl rfl

/-- C4: the summarizer recomputes the tally by counting OK/WARN/OVER
statuses exactly when the tally read so far is (0,0,0) and the results list
is non-empty, and otherwise keeps that tally; the spec's flat-list example
yields {ok:1, warn:1, over:2} and its verbose example keeps the supplied
tally {ok:3, warn:1, over:0}. -/
theorem C4_fallback_rule :
    (∀ p s w r, summarizePre p = .ok (s, w, r) →
      summarize p = .ok
        ((if s = ⟨0, 0, 0⟩ ∧ r.isEmpty = false then
            (⟨countStatus r "OK", countStatus r "WARN", countStatus r "OVER"⟩ : Summary)
          else s), w, r)) ∧
    summarize flatReport =
      .ok (⟨1, 1, 2⟩, [], [[("status", Json.str "OK")], [("status", Json.str "WARN")],
        [("status", Json.str "OVER")], [("status", Json.str "OVER")]]) ∧
    summarize verboseReport = .ok (⟨3, 1, 0⟩, [], [[("status", Json.str "WARN")]]) := by
  refine ⟨?_, rfl, rfl⟩
  intro p s w r h
  simp only [summarize, h, Except.map]
  unfold applyFallback
  split <;> rfl

/-- C4 witness: the fallback rule at the flat-list example report. -/
theorem C4_fallback_rule_witness :
    summarize flatReport = .ok
      ((if (⟨0, 0, 0⟩ : Summary) = ⟨0, 0, 0⟩ ∧
           ([[("status", Json.str "OK")], [("status", Json.str "WARN")],
             [("status", Json.str "OVER")], [("status", Json.str "OVER")]] :
              List Dict).isEmpty = false then
          (⟨countStatus [[("status", Json.str "OK")], [("status", Json.str "WARN")],
             [("status", Json.str "OVER")], [("status", Json.str "OVER")]] "OK",
            countStatus [[("status", Json.str "OK")], [("status", Json.str "WARN")],
             [("status", Json.str "OVER")], [("status", Json.str "OVER")]] "WARN",
            countStatus [[("status", Json.str "OK")], [("status", Json.str "WARN")],
             [("status", Json.str "OVER")], [("status", Json.str "OVER")]] "OVER"⟩ : Summary)
        else ⟨0, 0, 0⟩),
       [], [[("status", Json.str "OK")], [("status", Json.str "WARN")],
        [("status", Json.str "OVER")], [("status", Json.str "OVER")]]) :=
  C4_fallback_rule.1 flatReport ⟨0, 0, 0⟩ []
    [[("status", Json.str "OK")], [("status", Json.str "WARN")],
     [("status", Json.str "OVER")], [("status", Json.str "OVER")]] rfl

/-- C5: a missing required setting or a non-numeric port override makes the
mailer print the specific error and return code 1 with no session attempted;
an exception raised by the SMTP session is caught at the mailer boundary,
its detail printed, the success confirmation not printed, and the distinct
code 2 returned. -/
theorem C5_mailer_errors :
    (∀ (env : Env) (oracle : SmtpOracle) (s b : String),
      (envGet env "DIRCAP_EMAIL_TO" none = none ∨
       envGet env "DIRCAP_SMTP_SERVER" none = none ∨
       envGet env "DIRCAP_SMTP_USER" none = none ∨
       envGet env "DIRCAP_SMTP_PASS" none = none) →
      sendEmail env oracle s b = ⟨1, none, [], [missingEnvMsg]⟩) ∧
    (∀ (env : Env) (oracle : SmtpOracle) (s b toA server user pass e : String),
      envGet env "DIRCAP_EMAIL_TO" none = some toA →
      envGet env "DIRCAP_SMTP_SERVER" none = some server →
      envGet env "DIRCAP_SMTP_USER" none = some user →
      envGet env "DIRCAP_SMTP_PASS" none = some pass →
      pyParseInt (portString env) = .error e →
      sendEmail env oracle s b =
        ⟨1, none, [], ["Invalid DIRCAP_SMTP_PORT: " ++ portString env]⟩) ∧
    (∀ (env : Env) (oracle : SmtpOracle) (s b : String) (spec : SessionSpec) (e : String),
      (sendEmail env oracle s b).attempted = some spec →
      oracle spec = .error e →
      sendEmail env oracle s b = ⟨2, some spec, [], ["Email failed: " ++ e]⟩) := by
  refine ⟨?_, ?_, ?_⟩
  · intro env oracle s b h
    unfold sendEmail
    rcases h with h | h | h | h
    · rw [h]
    · cases hto : envGet env "DIRCAP_EMAIL_TO" none with
      | none => rfl
      | some toA => rw [h]
    · cases hto : envGet env "DIRCAP_EMAIL_TO" none with
      | none => rfl
      | some toA =>
          cases hsrv : envGet env "DIRCAP_SMTP_SERVER" none with
          | none => rfl
          | some server => rw [h]
    · cases hto : envGet env "DIRCAP_EMAIL_TO" none with
      | none => rfl
      | some toA =>
          cases hsrv : envGet env "DIRCAP_SMTP_SERVER" none with
          | none => rfl
          | some server =>
              cases husr : envGet env "DIRCAP_SMTP_USER" none with
              | none => rfl
              | some user => rw [h]
  · intro env oracle s b toA server user pass e h1 h2 h3 h4 hp
    unfold sendEmail
    rw [h1, h2, h3, h4]
    unfold sendStage2
    rw [hp]
  · intro env oracle s b spec e hat hor
    cases h1 : envGet env "DIRCAP_EMAIL_TO" none with
    | none => simp only [sendEmail, h1] at hat; exact Option.noConfusion hat
    | some toA =>
    cases h2 : envGet env "DIRCAP_SMTP_SERVER" none with
    | none => simp only [sendEmail, h1, h2] at hat; exact Option.noConfusion hat
    | some server =>
    cases h3 : envGet env "DIRCAP_SMTP_USER" none with
    | none => simp only [sendEmail, h1, h2, h3] at hat; exact Option.noConfusion hat
    | some user =>
    cases h4 : envGet env "DIRCAP_SMTP_PASS" none with
    | none => simp only [sendEmail, h1, h2, h3, h4] at hat; exact Option.noConfusion hat
    | some pass =>
    cases hp : pyParseInt (portString env) with
    | error e2 =>
        simp only [sendEmail, h1, h2, h3, h4, sendStage2, hp] at hat
        exact Option.noConfusion hat
    | ok port =>
    simp only [sendEmail, h1, h2, h3, h4, sendStage2, hp] at hat ⊢
    cases ho : oracle (sessionOf env s b toA server user port) with
    | ok u =>
        rw [ho] at hat
        simp only [Option.some.injEq] at hat
        rw [hat] at ho
        rw [hor] at ho
        exact Except.noConfusion ho
    | error e2 =>
        rw [ho] at hat
        simp only [Option.some.injEq] at hat
        rw [hat] at ho
        rw [hor] at ho
        have he : e = e2 := Except.error.inj ho
        rw [← he, hat]

/-- C5 witness: the three mailer failure modes at concrete environments —
all settings missing, a non-numeric port, and a rejected session. -/
theorem C5_mailer_errors_witness :
    sendEmail (fun _ => none) (fun _ => .ok ()) "s" "b" = ⟨1, none, [], [missingEnvMsg]⟩ ∧
    sendEmail envBadPort (fun _ => .ok ()) "s" "b" =
      ⟨1, none, [], ["Invalid DIRCAP_SMTP_PORT: " ++ portString envBadPort]⟩ ∧
    sendEmail envFull (fun _ => .error "auth rejected") "s" "b" =
      ⟨2, some ⟨"srv", 465, true, false, "u", "a@b", "s", "b"⟩, [],
       ["Email failed: " ++ "auth rejected"]⟩ :=
  ⟨C5_mailer_errors.1 (fun _ => none) (fun _ => .ok ()) "s" "b" (Or.inl rfl),
   C5_mailer_errors.2.1 envBadPort (fun _ => .ok ()) "s" "b" "a@b" "srv" "u" "p"
     "invalid literal for int() with base 10: '4x5'" rfl rfl rfl rfl rfl,
   C5_mailer_errors.2.2 envFull (fun _ => .error "auth rejected") "s" "b"
     ⟨"srv", 465, true, false, "u", "a@b", "s", "b"⟩ "auth rejected" rfl rfl⟩

/-- C6: loading the report never raises — a missing path or a failed parse
degrades to a null report, the summarizer maps null to summary {0,0,0} with
empty warnings and results, and the body built from that carries the
could-not-parse fallback line in place of the affected-folders rows. -/
theorem C6_load_degrades :
    (∀ parse : String → Option Json, loadJson none parse = Json.null) ∧
    (∀ (parse : String → Option Json) (s : String), parse s = none →
      loadJson (some s) parse = Json.null) ∧
    summarize Json.null = .ok (⟨0, 0, 0⟩, [], []) ∧
    (∀ p q now, (buildMessage ⟨0, 0, 0⟩ [] [] p q now).2 =
        String.intercalate "\n" (buildLines ⟨0, 0, 0⟩ [] [] p q now) ∧
      noDetailsLine ∈ buildLines ⟨0, 0, 0⟩ [] [] p q now) := by
  refine ⟨fun _ => rfl, fun parse s h => ?_, rfl, fun p q now => ⟨rfl, ?_⟩⟩
  · simp [loadJson, h]
  · simp [buildLines]

/-- C6 witness: the degradation at a concrete unparseable content, and the
fallback line in a concrete body. -/
theorem C6_load_degrades_witness :
    loadJson (some "not json") (fun _ => none) = Json.null ∧
      noDetailsLine ∈ buildLines ⟨0, 0, 0⟩ [] [] "a" "b" "t" :=
  ⟨C6_load_degrades.2.1 (fun _ => none) "not json" rfl,
   (C6_load_degrades.2.2.2 "a" "b" "t").2⟩

/-- C7: with neither EMAIL_USE_SSL nor EMAIL_USE_TLS set, the session is
opened with implicit encryption iff the port equals 465 and with the
STARTTLS upgrade iff the port equals 587; with port 2525 and no overrides
both flags are false, so a plain unencrypted session is attempted. -/
theorem C7_flag_defaults :
    (∀ (env : Env) (oracle : SmtpOracle) (s b toA server user pass : String) (port : Int),
      envGet env "DIRCAP_EMAIL_TO" none = some toA →
      envGet env "DIRCAP_SMTP_SERVER" none = some server →
      envGet env "DIRCAP_SMTP_USER" none = some user →
      envGet env "DIRCAP_SMTP_PASS" none = some pass →
      envGet env "EMAIL_USE_SSL" none = none →
      envGet env "EMAIL_USE_TLS" none = none →
      pyParseInt (portString env) = .ok port →
      (sendEmail env oracle s b).attempted =
        some ⟨server, port, port == 465, port == 587,
          (envGet env "DIRCAP_EMAIL_FROM" (some user)).getD user, toA, s, b⟩) ∧
    (sendEmail env2525 (fun _ => .ok ()) "s" "b").attempted =
      some ⟨"srv", 2525, false, false, "u", "a@b", "s", "b"⟩ := by
  refine ⟨?_, rfl⟩
  intro env oracle s b toA server user pass port h1 h2 h3 h4 hssl htls hp
  simp only [sendEmail, h1, h2, h3, h4, sendStage2, hp]
  cases ho : oracle (sessionOf env s b toA server user port) <;>
    simp only [sessionOf, envBool_of_unset env "EMAIL_USE_SSL" _ hssl,
      envBool_of_unset env "EMAIL_USE_TLS" _ htls]

/-- C7 witness: the default-flag rule at a concrete environment with port
465 and no overrides. -/
theorem C7_flag_defaults_witness :
    (sendEmail envFull (fun _ => .ok ()) "s" "b").attempted =
      some ⟨"srv", 465, true, false, "u", "a@b", "s", "b"⟩ :=
  C7_flag_defaults.1 envFull (fun _ => .ok ()) "s" "b" "a@b" "srv" "u" "p" 465
    rfl rfl rfl rfl rfl rfl rfl

theorem append_ne_empty (s t : String) (h : t.length ≠ 0) : s ++ t ≠ "" := by
  intro he
  have hl := congrArg String.length he
  rw [String.length_append] at hl
  simp at hl
  omega

/-- C8 is false as stated: Python's `isinstance(x, int)` accepts booleans,
so a record whose used_bytes is the JSON boolean true still receives the
"(usedB/limitB)" suffix — rendered "(TrueB/1000B)" — although used_bytes is
not an integer. -/
theorem C8_counterexample :
    fmtRow boolBytesRow = "- OVER     %    |   (TrueB/1000B)" ∧
    bytesSuffix boolBytesRow = " (TrueB/1000B)" ∧
    ∀ n : Int, dget boolBytesRow "used_bytes" ≠ some (Json.int n) := by
  refine ⟨rfl, rfl, fun n h => ?_⟩
  rw [show dget boolBytesRow "used_bytes" = some (Json.bool true) from rfl] at h
  exact Json.noConfusion (Option.some.inj h)

/-- C8 (amended): the spec's example record renders exactly as stated, and
in general the "(usedB/limitB)" suffix appears iff both used_bytes and
limit_bytes are present with values Python treats as int instances —
integers or booleans. -/
theorem C8_row_render :
    fmtRow warnRow = "- WARN   91%  logs  |  /var/logs (910B/1000B)" ∧
    ∀ r : Dict, bytesSuffix r ≠ "" ↔
      ((dget r "used_bytes").any isPyInt = true ∧
        (dget r "limit_bytes").any isPyInt = true) := by
  refine ⟨rfl, fun r => ⟨?_, ?_⟩⟩
  · intro hne
    unfold bytesSuffix at hne
    by_cases hc : bytePart (dget r "used_bytes") != "" &&
        bytePart (dget r "limit_bytes") != ""
    · constructor
      · cases hu : dget r "used_bytes" with
        | none => rw [hu] at hc; simp [bytePart] at hc
        | some x =>
            rw [hu] at hc
            cases hx : isPyInt x with
            | false => simp [bytePart, hx] at hc
            | true => simp [Option.any, hx]
      · cases hu : dget r "limit_bytes" with
        | none => rw [hu] at hc; simp [bytePart] at hc
        | some x =>
            rw [hu] at hc
            cases hx : isPyInt x with
            | false => simp [bytePart, hx] at hc
            | true => simp [Option.any, hx]
    · rw [if_neg hc] at hne
      exact absurd rfl hne
  · rintro ⟨hu, hl⟩
    cases hu2 : dget r "used_bytes" with
    | none => rw [hu2] at hu; simp [Option.any] at hu
    | some x =>
    cases hl2 : dget r "limit_bytes" with
    | none => rw [hl2] at hl; simp [Option.any] at hl
    | some y =>
    rw [hu2] at hu; rw [hl2] at hl
    simp only [Option.any] at hu hl
    unfold bytesSuffix
    rw [hu2, hl2]
    simp only [bytePart, hu, hl, if_pos]
    have h1 : pyStr x ++ "B" ≠ "" := append_ne_empty (pyStr x) "B" (by decide)
    have h2 : pyStr y ++ "B" ≠ "" := append_ne_empty (pyStr y) "B" (by decide)
    rw [if_pos (by simp [h1, h2])]
    exact append_ne_empty _ ")" (by decide)

/-- C9: the summarizer is not total — a verbose report whose tally maps ok
to the string "abc" makes the int coercion raise, the exception escapes the
summarizer, and the whole run aborts instead of degrading to an empty
report. -/
theorem C9_summarizer_raises :
    summarize badTallyReport = .error "invalid literal for int() with base 10: 'abc'" ∧
    mainRun ["send-email.py", "a.txt", "a.json"] (fun _ => none) (some "x")
        (fun _ => some badTallyReport) (fun _ => .ok ()) "t" =
      .error "invalid literal for int() with base 10: 'abc'" :=
  ⟨rfl, rfl⟩

/-- C10: with two positional arguments, the entry point unconditionally
builds the message from whatever the summarizer produced — any report
content, including an all-zero summary — hands it to the mailer, and exits
with exactly the mailer's return value. -/
theorem C10_main_pipeline (prog t j : String) (env : Env) (fileText : Option String)
    (parse : String → Option Json) (oracle : SmtpOracle) (now : String)
    (s : Summary) (w : List String) (r : List Dict)
    (h : summarize (loadJson fileText parse) = .ok (s, w, r)) :
    mainRun [prog, t, j] env fileText parse oracle now =
      .ok ⟨(sendEmail env oracle (buildMessage s w r t j now).1
              (buildMessage s w r t j now).2).code, [],
           some (sendEmail env oracle (buildMessage s w r t j now).1
              (buildMessage s w r t j now).2)⟩ := by
  unfold mainRun
  rw [h]
  rfl

/-- C10 witness: the pipeline at an absent report — the all-zero summary
still reaches the mailer and its code is the exit code. -/
theorem C10_main_pipeline_witness :
    mainRun ["p", "a", "b"] (fun _ => none) none (fun _ => none) (fun _ => .ok ()) "t" =
      .ok ⟨(sendEmail (fun _ => none) (fun _ => .ok ())
              (buildMessage ⟨0, 0, 0⟩ [] [] "a" "b" "t").1
              (buildMessage ⟨0, 0, 0⟩ [] [] "a" "b" "t").2).code, [],
           some (sendEmail (fun _ => none) (fun _ => .ok ())
              (buildMessage ⟨0, 0, 0⟩ [] [] "a" "b" "t").1
              (buildMessage ⟨0, 0, 0⟩ [] [] "a" "b" "t").2)⟩ :=
  C10_main_pipeline "p" "a" "b" (fun _ => none) none (fun _ => none)
    (fun _ => .ok ()) "t" ⟨0, 0, 0⟩ [] [] rfl

end DircapSendEmail
